import Mathlib

/-!
Verification of the PyCO2SYS solubility engine (`PyCO2SYS/solubility.py`).

The module computes calcite and aragonite stoichiometric solubility
products and the corresponding saturation ratios (Omega).  All quantities
are vectorized over an implicit sample dimension; we model an array as a
function from an index type `ι` to `ℝ`, and the numpy elementwise `where`
select as a pointwise conditional.  Python floats are modelled by real
numbers; `exp`, `log10`, `sqrt` and `**` become their real counterparts.
-/

noncomputable section

/-- Modelled from the spec: the universal gas constant `RGasConstant` from
the `constants` module of the repository (not under the sources provided), in
units consistent with bar·cm³/(mol·K). -/
def RGasConstant : ℝ := 83.1451

/-- Modelled from the spec: `convert.TempC2K(TempC) = TempC + 273.15`
(the `convert` module is not under the sources provided). -/
def TempC2K (TempC : ℝ) : ℝ := TempC + 273.15

/-- Modelled from the spec: `convert.TempK2C`, the inverse of `TempC2K`. -/
def TempK2C (TempK : ℝ) : ℝ := TempK - 273.15

/-- Modelled from the spec: `convert.Pdbar2bar(Pdbar) = Pdbar / 10`. -/
def Pdbar2bar (Pdbar : ℝ) : ℝ := Pdbar / 10

/-- The numpy base-10 logarithm, modelled as `Real.logb 10`. -/
def log10 (x : ℝ) : ℝ := Real.logb 10 x

/-- The numpy elementwise `where(F, a, b)` select over equal-length arrays. -/
def npWhere {ι : Type} (F : ι → Bool) (a b : ι → ℝ) : ι → ℝ :=
  fun i => if F i then a i else b i

/-- Source `_deltaKappaCalcite_I75(TempC)`: delta and kappa terms for calcite
solubility [I75], returned as a pair `(deltaVKCa, KappaKCa)`. -/
def _deltaKappaCalcite_I75 (TempC : ℝ) : ℝ × ℝ :=
  (-48.76 + 0.5304 * TempC, (-11.76 + 0.3692 * TempC) / 1000)

/-- Source `k_calcite_M83(TempK, Sal, Pbar)`: calcite solubility following M83
with the I75/M79 pressure correction. -/
def k_calcite_M83 (TempK Sal Pbar : ℝ) : ℝ :=
  let logKCa := -171.9065 - 0.077993 * TempK + 2839.319 / TempK
  let logKCa := logKCa + 71.595 * log10 TempK
  let logKCa := logKCa + (-0.77712 + 0.0028426 * TempK + 178.34 / TempK) * Real.sqrt Sal
  let logKCa := logKCa - 0.07711 * Sal + 0.0041249 * Real.sqrt Sal * Sal
  let KCa := (10.0 : ℝ) ^ logKCa
  let TempC := TempK2C TempK
  let dk := _deltaKappaCalcite_I75 TempC
  let deltaVKCa := dk.1
  let KappaKCa := dk.2
  let lnKCafac := (-deltaVKCa + 0.5 * KappaKCa * Pbar) * Pbar / (RGasConstant * TempK)
  KCa * Real.exp lnKCafac

/-- Source `k_aragonite_M83(TempK, Sal, Pbar)`: aragonite solubility following M83
with the pressure correction of I75. -/
def k_aragonite_M83 (TempK Sal Pbar : ℝ) : ℝ :=
  let logKAr := -171.945 - 0.077993 * TempK + 2903.293 / TempK
  let logKAr := logKAr + 71.595 * log10 TempK
  let logKAr := logKAr + (-0.068393 + 0.0017276 * TempK + 88.135 / TempK) * Real.sqrt Sal
  let logKAr := logKAr - 0.10018 * Sal + 0.0059415 * Real.sqrt Sal * Sal
  let KAr := (10.0 : ℝ) ^ logKAr
  let TempC := TempK2C TempK
  let dk := _deltaKappaCalcite_I75 TempC
  let deltaVKAr := dk.1 + 2.8
  let KappaKAr := dk.2
  let lnKArfac := (-deltaVKAr + 0.5 * KappaKAr * Pbar) * Pbar / (RGasConstant * TempK)
  KAr * Real.exp lnKArfac

/-- Source `k_calcite_I75(TempK, Sal, Pbar)`: calcite solubility following ICHP73,
with the GEOSECS pressure correction. -/
def k_calcite_I75 (TempK Sal Pbar : ℝ) : ℝ :=
  let KCa := 0.0000001 *
    (-34.452 - 39.866 * Sal ^ ((1 : ℝ) / 3) + 110.21 * log10 Sal
      - 0.0000075752 * TempK ^ (2 : ℕ))
  let TempC := TempK2C TempK
  KCa * Real.exp ((36 - 0.2 * TempC) * Pbar / (RGasConstant * TempK))

/-- Source `k_aragonite_GEOSECS(TempK, Sal, Pbar)`: aragonite solubility following
ICHP73/B76, scaling calcite by 1.45 and applying the GEOSECS pressure
correction. -/
def k_aragonite_GEOSECS (TempK Sal Pbar : ℝ) : ℝ :=
  let KCa := k_calcite_I75 TempK Sal Pbar
  let KAr := 1.45 * KCa
  let TempC := TempK2C TempK
  KAr * Real.exp ((33.3 - 0.22 * TempC) * Pbar / (RGasConstant * TempK))

/-- Source `calcite(Sal, TempK, Pbar, CARB, TCa, WhichKs, K1, K2)`: calcite
saturation state `OmegaCa = CARB * TCa / KCa`, with `KCa` selected per
element by the GEOSECS mask `WhichKs ∈ {6, 7}`. -/
def calcite {ι : Type} (Sal TempK Pbar CARB TCa : ι → ℝ) (WhichKs : ι → ℤ)
    (_K1 _K2 : ι → ℝ) : ι → ℝ :=
  let F : ι → Bool := fun i => (WhichKs i == 6) || (WhichKs i == 7)
  let KCa := npWhere F (fun i => k_calcite_I75 (TempK i) (Sal i) (Pbar i))
    (fun i => k_calcite_M83 (TempK i) (Sal i) (Pbar i))
  fun i => CARB i * TCa i / KCa i

/-- Source `aragonite(Sal, TempK, Pbar, CARB, TCa, WhichKs, K1, K2)`: aragonite
saturation state `OmegaAr = CARB * TCa / KAr`, with `KAr` selected per
element by the GEOSECS mask `WhichKs ∈ {6, 7}`. -/
def aragonite {ι : Type} (Sal TempK Pbar CARB TCa : ι → ℝ) (WhichKs : ι → ℤ)
    (_K1 _K2 : ι → ℝ) : ι → ℝ :=
  let F : ι → Bool := fun i => (WhichKs i == 6) || (WhichKs i == 7)
  let KAr := npWhere F (fun i => k_aragonite_GEOSECS (TempK i) (Sal i) (Pbar i))
    (fun i => k_aragonite_M83 (TempK i) (Sal i) (Pbar i))
  fun i => CARB i * TCa i / KAr i

/-- Source `CaCO3(Sal, TempC, Pdbar, CARB, TCa, WhichKs, K1, K2)`: converts units
and returns the pair `(OmegaCa, OmegaAr)`. -/
def CaCO3 {ι : Type} (Sal TempC Pdbar CARB TCa : ι → ℝ) (WhichKs : ι → ℤ)
    (K1 K2 : ι → ℝ) : (ι → ℝ) × (ι → ℝ) :=
  let TempK := fun i => TempC2K (TempC i)
  let Pbar := fun i => Pdbar2bar (Pdbar i)
  let OmegaCa := calcite Sal TempK Pbar CARB TCa WhichKs K1 K2
  let OmegaAr := aragonite Sal TempK Pbar CARB TCa WhichKs K1 K2
  (OmegaCa, OmegaAr)

/-- Division made total by an explicit `none` on a zero divisor: the
unguarded `/` of the source corresponds to the `some` branch. -/
def checkedDiv (x y : ℝ) : Option ℝ := if y = 0 then none else some (x / y)

/-- The `calcite` dispatcher with the saturation-ratio division guarded. -/
def calciteChecked {ι : Type} (Sal TempK Pbar CARB TCa : ι → ℝ) (WhichKs : ι → ℤ)
    (_K1 _K2 : ι → ℝ) : ι → Option ℝ :=
  let F : ι → Bool := fun i => (WhichKs i == 6) || (WhichKs i == 7)
  let KCa := npWhere F (fun i => k_calcite_I75 (TempK i) (Sal i) (Pbar i))
    (fun i => k_calcite_M83 (TempK i) (Sal i) (Pbar i))
  fun i => checkedDiv (CARB i * TCa i) (KCa i)

/-- The `aragonite` dispatcher with the saturation-ratio division guarded. -/
def aragoniteChecked {ι : Type} (Sal TempK Pbar CARB TCa : ι → ℝ) (WhichKs : ι → ℤ)
    (_K1 _K2 : ι → ℝ) : ι → Option ℝ :=
  let F : ι → Bool := fun i => (WhichKs i == 6) || (WhichKs i == 7)
  let KAr := npWhere F (fun i => k_aragonite_GEOSECS (TempK i) (Sal i) (Pbar i))
    (fun i => k_aragonite_M83 (TempK i) (Sal i) (Pbar i))
  fun i => checkedDiv (CARB i * TCa i) (KAr i)

end

/-- C2: for all TempK, Sal, Pbar, `k_aragonite_GEOSECS` equals
`1.45 * k_calcite_I75(TempK, Sal, Pbar) * exp((33.3 - 0.22*TempC)*Pbar/(R*TempK))`
with `TempC = TempK - 273.15`; the scale factor is 1.45, not 1.48. -/
theorem k_aragonite_GEOSECS_eq_scaled_calcite (TempK Sal Pbar : ℝ) :
    k_aragonite_GEOSECS TempK Sal Pbar =
      1.45 * k_calcite_I75 TempK Sal Pbar *
        Real.exp ((33.3 - 0.22 * (TempK - 273.15)) * Pbar / (RGasConstant * TempK)) :=
  rfl

/-- C4: `CaCO3` returns exactly the pair of the direct `calcite` and
`aragonite` calls at `TempK = TempC + 273.15` and `Pbar = Pdbar / 10`. -/
theorem CaCO3_eq_direct_calls {ι : Type} (Sal TempC Pdbar CARB TCa : ι → ℝ)
    (WhichKs : ι → ℤ) (K1 K2 : ι → ℝ) :
    (CaCO3 Sal TempC Pdbar CARB TCa WhichKs K1 K2).1 =
        calcite Sal (fun i => TempC i + 273.15) (fun i => Pdbar i / 10)
          CARB TCa WhichKs K1 K2 ∧
      (CaCO3 Sal TempC Pdbar CARB TCa WhichKs K1 K2).2 =
        aragonite Sal (fun i => TempC i + 273.15) (fun i => Pdbar i / 10)
          CARB TCa WhichKs K1 K2 :=
  ⟨rfl, rfl⟩

/-- C7: the outputs of `calcite`, `aragonite` and `CaCO3` do not depend on
the `K1` and `K2` arguments. -/
theorem K1_K2_unused {ι : Type} (Sal TempK Pbar TempC Pdbar CARB TCa : ι → ℝ)
    (WhichKs : ι → ℤ) (K1 K2 K1' K2' : ι → ℝ) :
    calcite Sal TempK Pbar CARB TCa WhichKs K1 K2 =
        calcite Sal TempK Pbar CARB TCa WhichKs K1' K2' ∧
      aragonite Sal TempK Pbar CARB TCa WhichKs K1 K2 =
        aragonite Sal TempK Pbar CARB TCa WhichKs K1' K2' ∧
      CaCO3 Sal TempC Pdbar CARB TCa WhichKs K1 K2 =
        CaCO3 Sal TempC Pdbar CARB TCa WhichKs K1' K2' :=
  ⟨rfl, rfl, rfl⟩

/-- The GEOSECS mask of the dispatchers, in propositional form. -/
theorem geosecs_mask_eq (w : ℤ) :
    ((w == 6) || (w == 7)) = true ↔ (w = 6 ∨ w = 7) := by
  simp

/-- C1: for every sample index `i`, `calcite` and `aragonite` select the
solubility constant per element by the WhichKs mask: the I75/GEOSECS
formulae when `WhichKs i ∈ {6, 7}` and the M83 formulae otherwise, even in
batches mixing GEOSECS and non-GEOSECS samples. -/
theorem calcite_aragonite_dispatch {ι : Type} (Sal TempK Pbar CARB TCa : ι → ℝ)
    (WhichKs : ι → ℤ) (K1 K2 : ι → ℝ) (i : ι) :
    calcite Sal TempK Pbar CARB TCa WhichKs K1 K2 i =
        CARB i * TCa i /
          (if WhichKs i = 6 ∨ WhichKs i = 7 then
            k_calcite_I75 (TempK i) (Sal i) (Pbar i)
          else k_calcite_M83 (TempK i) (Sal i) (Pbar i)) ∧
      aragonite Sal TempK Pbar CARB TCa WhichKs K1 K2 i =
        CARB i * TCa i /
          (if WhichKs i = 6 ∨ WhichKs i = 7 then
            k_aragonite_GEOSECS (TempK i) (Sal i) (Pbar i)
          else k_aragonite_M83 (TempK i) (Sal i) (Pbar i)) := by
  constructor
  · simp only [calcite, npWhere]
    by_cases h : WhichKs i = 6 ∨ WhichKs i = 7
    · rw [if_pos ((geosecs_mask_eq (WhichKs i)).mpr h), if_pos h]
    · rw [if_neg (fun hb => h ((geosecs_mask_eq (WhichKs i)).mp hb)), if_neg h]
  · simp only [aragonite, npWhere]
    by_cases h : WhichKs i = 6 ∨ WhichKs i = 7
    · rw [if_pos ((geosecs_mask_eq (WhichKs i)).mpr h), if_pos h]
    · rw [if_neg (fun hb => h ((geosecs_mask_eq (WhichKs i)).mp hb)), if_neg h]

/-- C3: the pressure-correction factor of `k_aragonite_M83` is
`exp((-(deltaVKCa + 2.8) + 0.5*KappaKCa*Pbar)*Pbar/(R*TempK))` where
`(deltaVKCa, KappaKCa)` is exactly `_deltaKappaCalcite_I75` at
`TempC = TempK - 273.15`: aragonite delta-V is calcite delta-V plus 2.8
and aragonite kappa is calcite kappa unchanged. -/
theorem k_aragonite_M83_pressure_correction (TempK Sal Pbar : ℝ) :
    k_aragonite_M83 TempK Sal Pbar =
      k_aragonite_M83 TempK Sal 0 *
        Real.exp ((-((_deltaKappaCalcite_I75 (TempK - 273.15)).1 + 2.8) +
            0.5 * (_deltaKappaCalcite_I75 (TempK - 273.15)).2 * Pbar) * Pbar /
          (RGasConstant * TempK)) := by
  simp only [k_aragonite_M83, TempK2C]
  norm_num [Real.exp_zero]

/-- C5: at zero pressure the M83 pressure-correction exponent is zero, so
`k_calcite_M83 TempK Sal 0` equals the base value `10 ^ logKCa` of the
polynomial fit alone. -/
theorem k_calcite_M83_zero_pressure (TempK Sal : ℝ) :
    k_calcite_M83 TempK Sal 0 =
      (10 : ℝ) ^ (-171.9065 - 0.077993 * TempK + 2839.319 / TempK
        + 71.595 * log10 TempK
        + (-0.77712 + 0.0028426 * TempK + 178.34 / TempK) * Real.sqrt Sal
        - 0.07711 * Sal + 0.0041249 * Real.sqrt Sal * Sal) := by
  simp only [k_calcite_M83, TempK2C]
  norm_num [Real.exp_zero]

/-- C9: on a GEOSECS sample (`WhichKs i ∈ {6,7}`) at zero pressure, the
aragonite saturation state is exactly the calcite one divided by 1.45. -/
theorem geosecs_zero_pressure_aragonite_ratio {ι : Type}
    (Sal TempK Pbar CARB TCa : ι → ℝ) (WhichKs : ι → ℤ) (K1 K2 : ι → ℝ) (i : ι)
    (hW : WhichKs i = 6 ∨ WhichKs i = 7) (hP : Pbar i = 0) :
    aragonite Sal TempK Pbar CARB TCa WhichKs K1 K2 i =
      calcite Sal TempK Pbar CARB TCa WhichKs K1 K2 i / 1.45 := by
  have hb : ((WhichKs i == 6) || (WhichKs i == 7)) = true :=
    (geosecs_mask_eq (WhichKs i)).mpr hW
  simp only [aragonite, calcite, npWhere, hb, if_true, hP]
  simp only [k_aragonite_GEOSECS]
  norm_num [Real.exp_zero]
  ring

/-- Witness for C9 at a concrete GEOSECS sample with zero pressure. -/
theorem geosecs_zero_pressure_aragonite_ratio_witness :
    aragonite (fun _ : Unit => 35) (fun _ => 298.15) (fun _ => 0) (fun _ => 0.0002)
        (fun _ => 0.0102) (fun _ => 6) (fun _ => 0) (fun _ => 0) () =
      calcite (fun _ : Unit => 35) (fun _ => 298.15) (fun _ => 0) (fun _ => 0.0002)
        (fun _ => 0.0102) (fun _ => 6) (fun _ => 0) (fun _ => 0) () / 1.45 :=
  geosecs_zero_pressure_aragonite_ratio _ _ _ _ _ _ _ _ () (Or.inl rfl) rfl

/-- C6: under the precondition that the per-element selected solubility
constant is strictly positive, the saturation-ratio division is
well-defined: the guarded embedding takes the `some` branch and returns
exactly `CARB * TCa / Ksp`, i.e. exactly what the unguarded `calcite` and
`aragonite` compute; the division-by-zero branch is unreachable. -/
theorem omega_division_unguarded {ι : Type} (Sal TempK Pbar CARB TCa : ι → ℝ)
    (WhichKs : ι → ℤ) (K1 K2 : ι → ℝ) (i : ι)
    (hCa : 0 < npWhere (fun j => (WhichKs j == 6) || (WhichKs j == 7))
      (fun j => k_calcite_I75 (TempK j) (Sal j) (Pbar j))
      (fun j => k_calcite_M83 (TempK j) (Sal j) (Pbar j)) i)
    (hAr : 0 < npWhere (fun j => (WhichKs j == 6) || (WhichKs j == 7))
      (fun j => k_aragonite_GEOSECS (TempK j) (Sal j) (Pbar j))
      (fun j => k_aragonite_M83 (TempK j) (Sal j) (Pbar j)) i) :
    calciteChecked Sal TempK Pbar CARB TCa WhichKs K1 K2 i =
        some (calcite Sal TempK Pbar CARB TCa WhichKs K1 K2 i) ∧
      aragoniteChecked Sal TempK Pbar CARB TCa WhichKs K1 K2 i =
        some (aragonite Sal TempK Pbar CARB TCa WhichKs K1 K2 i) := by
  constructor
  · simp only [calciteChecked, calcite, checkedDiv]
    rw [if_neg hCa.ne']
  · simp only [aragoniteChecked, aragonite, checkedDiv]
    rw [if_neg hAr.ne']

/-- Witness for C6 at a concrete non-GEOSECS sample where both selected
constants are positive. -/
theorem omega_division_unguarded_witness :
    calciteChecked (fun _ : Unit => 35) (fun _ => 298.15) (fun _ => 0)
        (fun _ => 0.0002) (fun _ => 0.0102) (fun _ => 4) (fun _ => 0) (fun _ => 0) () =
        some (calcite (fun _ : Unit => 35) (fun _ => 298.15) (fun _ => 0)
          (fun _ => 0.0002) (fun _ => 0.0102) (fun _ => 4) (fun _ => 0) (fun _ => 0) ()) ∧
      aragoniteChecked (fun _ : Unit => 35) (fun _ => 298.15) (fun _ => 0)
        (fun _ => 0.0002) (fun _ => 0.0102) (fun _ => 4) (fun _ => 0) (fun _ => 0) () =
        some (aragonite (fun _ : Unit => 35) (fun _ => 298.15) (fun _ => 0)
          (fun _ => 0.0002) (fun _ => 0.0102) (fun _ => 4) (fun _ => 0) (fun _ => 0) ()) := by
  refine omega_division_unguarded _ _ _ _ _ _ _ _ () ?_ ?_
  · simp only [npWhere]
    rw [if_neg (by decide)]
    simp only [k_calcite_M83]
    positivity
  · simp only [npWhere]
    rw [if_neg (by decide)]
    simp only [k_aragonite_M83]
    positivity

/-- C10: there are inputs with strictly positive salinity and temperature
(Sal = 1, TempK = 298.15, Pbar = 0) where `k_calcite_I75` is strictly
negative: the ICHP73 fit is negative at low salinity, so the GEOSECS
branch does not by itself guarantee the `Ksp > 0` precondition of the
unguarded Omega division. -/
theorem k_calcite_I75_negative_at_low_salinity :
    ∃ TempK Sal Pbar : ℝ, 0 < Sal ∧ 0 < TempK ∧ k_calcite_I75 TempK Sal Pbar < 0 := by
  refine ⟨298.15, 1, 0, by norm_num, by norm_num, ?_⟩
  simp only [k_calcite_I75, log10, TempK2C]
  rw [Real.one_rpow, Real.logb_one]
  norm_num [Real.exp_zero]

/-- Base (zero-pressure) value of the M83 calcite fit. -/
theorem k_calcite_M83_base (TempK Sal : ℝ) :
    k_calcite_M83 TempK Sal 0 =
      (10 : ℝ) ^ (-171.9065 - 0.077993 * TempK + 2839.319 / TempK
        + 71.595 * log10 TempK
        + (-0.77712 + 0.0028426 * TempK + 178.34 / TempK) * Real.sqrt Sal
        - 0.07711 * Sal + 0.0041249 * Real.sqrt Sal * Sal) := by
  simp only [k_calcite_M83, TempK2C]
  norm_num [Real.exp_zero]

/-- Base (zero-pressure) value of the M83 aragonite fit. -/
theorem k_aragonite_M83_base (TempK Sal : ℝ) :
    k_aragonite_M83 TempK Sal 0 =
      (10 : ℝ) ^ (-171.945 - 0.077993 * TempK + 2903.293 / TempK
        + 71.595 * log10 TempK
        + (-0.068393 + 0.0017276 * TempK + 88.135 / TempK) * Real.sqrt Sal
        - 0.10018 * Sal + 0.0059415 * Real.sqrt Sal * Sal) := by
  simp only [k_aragonite_M83, TempK2C]
  norm_num [Real.exp_zero]

/-- A rational lower bound on `√35`. -/
theorem sqrt35_gt : (5.916 : ℝ) < Real.sqrt 35 := by
  have h1 : Real.sqrt 34.999056 < Real.sqrt 35 :=
    Real.sqrt_lt_sqrt (by norm_num) (by norm_num)
  have h2 : Real.sqrt 34.999056 = 5.916 := by
    rw [show (34.999056 : ℝ) = 5.916 ^ 2 by norm_num, Real.sqrt_sq (by norm_num)]
  linarith

/-- At TempK = 298.15 and Sal = 35 the M83 aragonite base exponent exceeds
the calcite one, hence KAr exceeds KCa. -/
theorem kCa_lt_kAr_scenario :
    k_calcite_M83 298.15 35 0 < k_aragonite_M83 298.15 35 0 := by
  rw [k_calcite_M83_base, k_aragonite_M83_base]
  refine (Real.rpow_lt_rpow_left_iff (by norm_num)).mpr ?_
  have hs := sqrt35_gt
  nlinarith [hs]

/-- C8: at Sal = 35, TempC = 25, Pdbar = 0, CARB = 2e-4 mol/kg,
TCa = 0.0102 mol/kg, WhichKs = 1, `CaCO3` returns strictly positive
OmegaCa and OmegaAr with OmegaAr < OmegaCa. -/
theorem CaCO3_standard_seawater_scenario :
    0 < (CaCO3 (fun _ : Unit => 35) (fun _ => 25) (fun _ => 0) (fun _ => 0.0002)
        (fun _ => 0.0102) (fun _ => 1) (fun _ => 0) (fun _ => 0)).1 () ∧
      0 < (CaCO3 (fun _ : Unit => 35) (fun _ => 25) (fun _ => 0) (fun _ => 0.0002)
        (fun _ => 0.0102) (fun _ => 1) (fun _ => 0) (fun _ => 0)).2 () ∧
      (CaCO3 (fun _ : Unit => 35) (fun _ => 25) (fun _ => 0) (fun _ => 0.0002)
        (fun _ => 0.0102) (fun _ => 1) (fun _ => 0) (fun _ => 0)).2 () <
        (CaCO3 (fun _ : Unit => 35) (fun _ => 25) (fun _ => 0) (fun _ => 0.0002)
          (fun _ => 0.0102) (fun _ => 1) (fun _ => 0) (fun _ => 0)).1 () := by
  have hOmegaCa : (CaCO3 (fun _ : Unit => 35) (fun _ => 25) (fun _ => 0)
      (fun _ => 0.0002) (fun _ => 0.0102) (fun _ => 1) (fun _ => 0) (fun _ => 0)).1 () =
      0.0002 * 0.0102 / k_calcite_M83 298.15 35 0 := by
    simp only [CaCO3, calcite, npWhere, TempC2K, Pdbar2bar]
    rw [if_neg (by decide)]
    norm_num
  have hOmegaAr : (CaCO3 (fun _ : Unit => 35) (fun _ => 25) (fun _ => 0)
      (fun _ => 0.0002) (fun _ => 0.0102) (fun _ => 1) (fun _ => 0) (fun _ => 0)).2 () =
      0.0002 * 0.0102 / k_aragonite_M83 298.15 35 0 := by
    simp only [CaCO3, aragonite, npWhere, TempC2K, Pdbar2bar]
    rw [if_neg (by decide)]
    norm_num
  have hKCa : (0 : ℝ) < k_calcite_M83 298.15 35 0 := by
    simp only [k_calcite_M83]
    positivity
  have hKAr : (0 : ℝ) < k_aragonite_M83 298.15 35 0 := by
    simp only [k_aragonite_M83]
    positivity
  have hlt := kCa_lt_kAr_scenario
  refine ⟨?_, ?_, ?_⟩
  · rw [hOmegaCa]
    exact div_pos (by norm_num) hKCa
  · rw [hOmegaAr]
    exact div_pos (by norm_num) hKAr
  · rw [hOmegaCa, hOmegaAr]
    exact div_lt_div_of_pos_left (by norm_num) hKCa hlt
